import Mathlib

/-!
Verification development for the Meridinate position-tracking core.

The SQLite-backed position store, the webhook event processor, the
balance-diff scanner, the reconciler and the wallet classification logic
are shallowly embedded here.  Floating-point numbers of the source are
modelled as rationals (ℚ); SQL NULL-able columns as `Option`; Python
truthiness (`if x:` over a float-or-None) as `truthyQ`.  Database writes
become pure functions from the old row to the new row; each embedded
function mirrors one Python function of the repository.
-/

namespace Meridinate

/-- COALESCE(x, 0): how the SQL statements and the Python `or 0` reads
treat a NULL numeric column.  (`x or 0` also maps `0` to `0`, so it
coincides with `getD 0` on numbers.) -/
def coQ (o : Option ℚ) : ℚ := o.getD 0

/-- Python truthiness of a float-or-None value: `None` and `0` are falsy. -/
def truthyQ (o : Option ℚ) : Bool :=
  match o with
  | none => false
  | some x => x != 0

/-- Python `a or b` on float-or-None values. -/
def pyOr (a b : Option ℚ) : Option ℚ := if truthyQ a then a else b

/-- One row of `mtew_token_positions` (timestamps abstracted:
`position_checked_at` keeps only whether the column is non-NULL, which is
all the code branches on). -/
structure Position where
  still_holding : Bool
  tracking_enabled : Option Bool
  current_balance : Option ℚ
  current_balance_usd : Option ℚ
  entry_market_cap : Option ℚ
  entry_balance : Option ℚ
  entry_balance_usd : Option ℚ
  avg_entry_price : Option ℚ
  total_bought_tokens : Option ℚ
  total_bought_usd : Option ℚ
  total_sold_tokens : Option ℚ
  total_sold_usd : Option ℚ
  buy_count : Option ℕ
  sell_count : Option ℕ
  realized_pnl : Option ℚ
  pnlRatio : Option ℚ
  fpnlRatio : Option ℚ
  exit_market_cap : Option ℚ
  tracking_stopped_reason : Option String
  position_checked_at : Bool
  deriving Repr, DecidableEq

/-- `analyzed_tokens_db.record_position_buy`: the single UPDATE adds the
buy to both totals, bumps `buy_count`, recomputes `avg_entry_price` from
the summed totals (NULLIF makes it NULL on a zero denominator), writes the
new balance and sets `still_holding = 1`.  All SET expressions read the
old row. -/
def record_position_buy (p : Position) (tokens_bought usd_amount : ℚ)
    (current_balance : ℚ) (current_balance_usd : Option ℚ) : Position :=
  let newTokens := coQ p.total_bought_tokens + tokens_bought
  let newUsd := coQ p.total_bought_usd + usd_amount
  { p with
    total_bought_tokens := some newTokens
    total_bought_usd := some newUsd
    buy_count := some (p.buy_count.getD 1 + 1)
    avg_entry_price := if newTokens = 0 then none else some (newUsd / newTokens)
    current_balance := some current_balance
    current_balance_usd := current_balance_usd
    still_holding := true
    position_checked_at := true }

/-- `analyzed_tokens_db.record_position_sell`: reads `avg_entry_price`
(`row[0] or 0`) and the stored entry market cap, derives cost basis,
realized-PnL delta, the trade-price `pnl_ratio` and the fumbled
`fpnl_ratio`, then runs the full-exit or the partial-sell UPDATE. -/
def record_position_sell (p : Position) (tokens_sold usd_received : ℚ)
    (current_balance : ℚ) (current_balance_usd : Option ℚ)
    (is_full_exit : Bool) (exit_market_cap entry_market_cap current_market_cap : Option ℚ) :
    Position :=
  let avg := coQ p.avg_entry_price
  let effective_entry_mc := pyOr entry_market_cap p.entry_market_cap
  let cost_basis := if avg != 0 then tokens_sold * avg else 0
  let realized_pnl_delta := usd_received - cost_basis
  let pnlNew : Option ℚ :=
    if tokens_sold > 0 ∧ avg ≠ 0 ∧ avg > 0 then
      some ((usd_received / tokens_sold) / avg)
    else none
  let fpnlNew : Option ℚ :=
    if truthyQ effective_entry_mc ∧ coQ effective_entry_mc > 0 ∧ truthyQ current_market_cap then
      some (coQ current_market_cap / coQ effective_entry_mc)
    else none
  if is_full_exit then
    { p with
      total_sold_tokens := some (coQ p.total_sold_tokens + tokens_sold)
      total_sold_usd := some (coQ p.total_sold_usd + usd_received)
      sell_count := some (p.sell_count.getD 0 + 1)
      realized_pnl := some (coQ p.realized_pnl + realized_pnl_delta)
      pnlRatio := pnlNew
      fpnlRatio := fpnlNew
      current_balance := some 0
      current_balance_usd := some 0
      still_holding := false
      exit_market_cap := exit_market_cap
      position_checked_at := true }
  else
    { p with
      total_sold_tokens := some (coQ p.total_sold_tokens + tokens_sold)
      total_sold_usd := some (coQ p.total_sold_usd + usd_received)
      sell_count := some (p.sell_count.getD 0 + 1)
      realized_pnl := some (coQ p.realized_pnl + realized_pnl_delta)
      current_balance := some current_balance
      current_balance_usd := current_balance_usd
      position_checked_at := true }

/-- `analyzed_tokens_db.update_mtew_position`: the still-holding UPDATE
writes balance and `pnl_ratio` only; the sold UPDATE zeroes the balance
and writes `pnl_ratio`, `fpnl_ratio` and `exit_market_cap`. -/
def update_mtew_position (p : Position) (still_holding : Bool)
    (current_balance current_balance_usd pnlArg fpnlArg exit_market_cap : Option ℚ) :
    Position :=
  if still_holding then
    { p with
      still_holding := true
      current_balance := current_balance
      current_balance_usd := current_balance_usd
      pnlRatio := pnlArg
      position_checked_at := true }
  else
    { p with
      still_holding := false
      current_balance := some 0
      current_balance_usd := some 0
      pnlRatio := pnlArg
      fpnlRatio := fpnlArg
      exit_market_cap := exit_market_cap
      position_checked_at := true }

/-- `analyzed_tokens_db.stop_tracking_position`. -/
def stop_tracking_position (p : Position) (reason : String) : Position :=
  { p with tracking_enabled := some false, tracking_stopped_reason := some reason }

/-- `analyzed_tokens_db.update_position_sell_reconciliation`: overwrites
the sell aggregates (`sell_count = 1`, totals set, not added), recomputes
`realized_pnl` and `pnl_ratio` from `avg_entry_price` (`row[0] or 0`),
and COALESCEs the exit market cap. -/
def update_position_sell_reconciliation (p : Position)
    (tokens_sold usd_received : ℚ) (exit_market_cap : Option ℚ) : Position :=
  let avg := coQ p.avg_entry_price
  let cost_basis := if avg != 0 then tokens_sold * avg else 0
  let realized := usd_received - cost_basis
  let pnlNew : Option ℚ :=
    if tokens_sold > 0 ∧ avg ≠ 0 ∧ avg > 0 then
      some ((usd_received / tokens_sold) / avg)
    else none
  { p with
    total_sold_tokens := some tokens_sold
    total_sold_usd := some usd_received
    sell_count := some 1
    realized_pnl := some realized
    pnlRatio := pnlNew
    exit_market_cap := match exit_market_cap with
      | none => p.exit_market_cap
      | some x => some x
    position_checked_at := true }

/-- Arguments of `analyzed_tokens_db.upsert_mtew_position` (the
`entry_timestamp` string is irrelevant to the claims and dropped). -/
structure UpsertArgs where
  entry_market_cap : Option ℚ
  still_holding : Bool
  current_balance : Option ℚ
  current_balance_usd : Option ℚ
  entry_balance : Option ℚ
  entry_balance_usd : Option ℚ
  avg_entry_price : Option ℚ
  total_bought_tokens : Option ℚ
  total_bought_usd : Option ℚ
  deriving Repr, DecidableEq

/-- `analyzed_tokens_db.upsert_mtew_position`, INSERT path (position
creation): `final_avg_entry_price` is the caller's value, or the
`entry_balance_usd / entry_balance` fallback when that value `is None`;
the totals fall back to `entry_balance or 0` / `entry_balance_usd or 0`;
`buy_count` starts at 1 and the aggregate columns take their schema
defaults (0 for the sell totals and `realized_pnl`, NULL for the ratios). -/
def upsert_mtew_position_insert (a : UpsertArgs) : Position :=
  let final_avg : Option ℚ :=
    if a.avg_entry_price = none ∧ truthyQ a.entry_balance_usd ∧
        truthyQ a.entry_balance ∧ coQ a.entry_balance > 0 then
      some (coQ a.entry_balance_usd / coQ a.entry_balance)
    else a.avg_entry_price
  let final_total_tokens : ℚ :=
    match a.total_bought_tokens with
    | some t => t
    | none => coQ a.entry_balance
  let final_total_usd : ℚ :=
    match a.total_bought_usd with
    | some u => u
    | none => coQ a.entry_balance_usd
  { still_holding := a.still_holding
    tracking_enabled := some true
    current_balance := a.current_balance
    current_balance_usd := a.current_balance_usd
    entry_market_cap := a.entry_market_cap
    entry_balance := a.entry_balance
    entry_balance_usd := a.entry_balance_usd
    avg_entry_price := final_avg
    total_bought_tokens := some final_total_tokens
    total_bought_usd := some final_total_usd
    total_sold_tokens := some 0
    total_sold_usd := some 0
    buy_count := some 1
    sell_count := some 0
    realized_pnl := some 0
    pnlRatio := none
    fpnlRatio := none
    exit_market_cap := none
    tracking_stopped_reason := none
    position_checked_at := false }

/-- `analyzed_tokens_db.get_active_position_by_token_address`, given the
(wallet, token) row: returns it only when `still_holding = 1` and
`tracking_enabled = 1 OR tracking_enabled IS NULL`. -/
def get_active_position (row : Option Position) : Option Position :=
  match row with
  | none => none
  | some p =>
      if p.still_holding ∧ p.tracking_enabled.getD true then some p else none

/-- `webhooks._process_swab_buy`: `row` is the
`get_position_by_token_address` lookup (any position, sold ones
included), `token_price` the DexScreener answer (`none` on failure or
exception).  Result `none` means no database write happened; `some p1`
is the updated row.  The transaction `signature` is only logged. -/
def process_swab_buy (row : Option Position) (tokens_bought : ℚ)
    (signature : String) (token_price : Option ℚ) : Option Position :=
  match row with
  | none => none
  | some p =>
      let current_balance := coQ p.current_balance
      if ¬ truthyQ token_price then none
      else
        let price := coQ token_price
        let usd_amount := tokens_bought * price
        let new_balance := current_balance + tokens_bought
        let new_balance_usd := new_balance * price
        let _ := signature
        some (record_position_buy p tokens_bought usd_amount new_balance
          (some new_balance_usd))

/-- The full-exit test of `webhooks._process_swab_sell`:
`new_balance < 0.001 or tokens_sold >= (current_balance * 0.99)` where
`current_balance` is the balance before the sell. -/
def webhook_is_full_exit (current_balance tokens_sold : ℚ) : Bool :=
  max 0 (current_balance - tokens_sold) < 1/1000 ∨
    tokens_sold ≥ current_balance * (99/100)

/-- `webhooks._process_swab_sell`: `row` is the raw (wallet, token) row;
the handler itself filters through the active-position lookup.
`token_price` and `current_mc` are the two DexScreener answers (both
`none` when the fetch raised).  Result `none` means no database write. -/
def process_swab_sell (row : Option Position) (tokens_sold : ℚ)
    (signature : String) (token_price current_mc : Option ℚ) : Option Position :=
  match get_active_position row with
  | none => none
  | some p =>
      let current_balance := coQ p.current_balance
      let entry_mc := p.entry_market_cap
      if ¬ truthyQ token_price then none
      else
        let price := coQ token_price
        let usd_received := tokens_sold * price
        let new_balance := max 0 (current_balance - tokens_sold)
        let is_full_exit := webhook_is_full_exit current_balance tokens_sold
        let new_balance_usd := if new_balance > 0 then new_balance * price else 0
        let _ := signature
        some (record_position_sell p tokens_sold usd_received new_balance
          (some new_balance_usd) is_full_exit
          (if is_full_exit then current_mc else none) entry_mc current_mc)

/-- State of the (wallet, token) store row after one webhook sell
transfer: unchanged when the handler declined the event. -/
def apply_sell_event (row : Option Position) (tokens_sold : ℚ)
    (signature : String) (token_price current_mc : Option ℚ) : Option Position :=
  match process_swab_sell row tokens_sold signature token_price current_mc with
  | some p1 => some p1
  | none => row

/-- `helius_api.get_recent_token_transaction` result as the callers
consume it: a dict read with `.get("tokens", d)` / `.get("usd_amount", 0)`
and, in the reconciler, `.get("type")`. -/
structure TxLookup where
  tokens : Option ℚ
  usdAmount : Option ℚ
  txType : String
  deriving Repr, DecidableEq

/-- Provider and market-feed answers consumed while the scanner processes
one position: `balance` is `none` on a provider error (`accounts is
None`), otherwise the extracted `uiAmount` (0 when no account);
`txBuy`/`txSell` are the resolver answers the buy/sell lookup would get;
the credit amounts are whatever the metered calls charge. -/
structure ScanInputs where
  balance : Option ℚ
  tokenPrice : Option ℚ
  currentMc : Option ℚ
  txBuy : Option TxLookup
  txSell : Option TxLookup
  balanceCredits : ℕ
  txCredits : ℕ
  deriving Repr, DecidableEq

/-- What one iteration of `check_mtew_positions` produced. -/
structure StepResult where
  pos : Position
  credits : ℕ
  isError : Bool
  buyDetected : Bool
  sellDetected : Bool
  soldInc : Bool
  holdingInc : Bool
  deriving Repr, DecidableEq

/-- The per-position body of `tasks.position_tracker.check_mtew_positions`:
balance fetch, epsilon-gated delta classification, the buy / sell /
no-change / zero branches with their resolver lookups and store writes,
and the full-exit `stop_tracking_position` call. -/
def scanStep (p : Position) (inp : ScanInputs) : StepResult :=
  match inp.balance with
  | none =>
      { pos := p, credits := inp.balanceCredits, isError := true,
        buyDetected := false, sellDetected := false,
        soldInc := false, holdingInc := false }
  | some current_balance =>
      let previous_balance := coQ p.current_balance
      let current_balance_usd : Option ℚ :=
        if truthyQ inp.tokenPrice then some (current_balance * coQ inp.tokenPrice) else none
      let pnl : Option ℚ :=
        if truthyQ p.entry_market_cap ∧ coQ p.entry_market_cap > 0 ∧ truthyQ inp.currentMc then
          some (coQ inp.currentMc / coQ p.entry_market_cap)
        else none
      let balance_diff := current_balance - previous_balance
      let balance_changed := |balance_diff| > 1/1000
      if balance_changed ∧ balance_diff > 0 then
        -- buy branch: resolver lookup, then record or plain balance update
        match inp.txBuy with
        | some tx =>
            { pos := record_position_buy p (tx.tokens.getD balance_diff)
                (tx.usdAmount.getD 0) current_balance current_balance_usd,
              credits := inp.balanceCredits + inp.txCredits, isError := false,
              buyDetected := true, sellDetected := false,
              soldInc := false, holdingInc := true }
        | none =>
            { pos := update_mtew_position p true (some current_balance)
                current_balance_usd pnl none none,
              credits := inp.balanceCredits + inp.txCredits, isError := false,
              buyDetected := false, sellDetected := false,
              soldInc := false, holdingInc := true }
      else if balance_changed ∧ balance_diff < 0 then
        -- sell branch
        let tokens_sold := |balance_diff|
        let is_full_exit := current_balance < 1/1000
        let afterRecord :=
          match inp.txSell with
          | some tx =>
              record_position_sell p (tx.tokens.getD tokens_sold)
                (tx.usdAmount.getD 0) current_balance current_balance_usd
                is_full_exit (if is_full_exit then inp.currentMc else none)
                p.entry_market_cap inp.currentMc
          | none =>
              let fpnl : Option ℚ :=
                if truthyQ p.entry_market_cap ∧ coQ p.entry_market_cap > 0 ∧
                    truthyQ inp.currentMc then
                  some (coQ inp.currentMc / coQ p.entry_market_cap)
                else none
              let estimated : Option ℚ :=
                if truthyQ inp.tokenPrice ∧ truthyQ p.total_bought_usd ∧
                    coQ p.total_bought_usd > 0 then
                  some (tokens_sold * coQ inp.tokenPrice / coQ p.total_bought_usd)
                else none
              if is_full_exit then
                update_mtew_position p false none none estimated fpnl inp.currentMc
              else
                update_mtew_position p true (some current_balance)
                  current_balance_usd pnl none none
        { pos := if is_full_exit then stop_tracking_position afterRecord "sold" else afterRecord,
          credits := inp.balanceCredits + inp.txCredits, isError := false,
          buyDetected := false, sellDetected := inp.txSell.isSome,
          soldInc := is_full_exit, holdingInc := ¬ is_full_exit }
      else if current_balance > 0 then
        -- no material delta, still holding
        { pos := update_mtew_position p true (some current_balance)
            current_balance_usd pnl none none,
          credits := inp.balanceCredits, isError := false,
          buyDetected := false, sellDetected := false,
          soldInc := false, holdingInc := true }
      else
        -- balance is (and/or was) zero: sold before the visibility window
        let is_first_check := ¬ p.position_checked_at
        let should_lookup := is_first_check ∨
          (p.entry_balance ≠ none ∧ coQ p.entry_balance > 0)
        let tx_result := if should_lookup then inp.txSell else none
        let afterRecord :=
          match tx_result with
          | some tx =>
              record_position_sell p (tx.tokens.getD (coQ p.entry_balance))
                (tx.usdAmount.getD 0) 0 (some 0) true inp.currentMc
                p.entry_market_cap inp.currentMc
          | none =>
              let fpnl : Option ℚ :=
                if truthyQ p.entry_market_cap ∧ coQ p.entry_market_cap > 0 ∧
                    truthyQ inp.currentMc then
                  some (coQ inp.currentMc / coQ p.entry_market_cap)
                else none
              let tokens_sold_estimate := coQ p.entry_balance
              let estimated : Option ℚ :=
                if truthyQ inp.tokenPrice ∧ truthyQ p.total_bought_usd ∧
                    coQ p.total_bought_usd > 0 ∧ tokens_sold_estimate > 0 then
                  some (tokens_sold_estimate * coQ inp.tokenPrice / coQ p.total_bought_usd)
                else none
              update_mtew_position p false none none estimated fpnl inp.currentMc
        { pos := stop_tracking_position afterRecord "sold",
          credits := inp.balanceCredits + (if should_lookup then inp.txCredits else 0),
          isError := false, buyDetected := false,
          sellDetected := tx_result.isSome,
          soldInc := true, holdingInc := false }

/-- The credit-budget guard of `check_mtew_positions`: each position is
processed only while `total_credits + 20 <= max_credits`; the final
`total_credits` is the `credits_used` of the scan report. -/
def scanCreditsLoop (max_credits : ℕ) : ℕ → List (Position × ScanInputs) → ℕ
  | total, [] => total
  | total, (p, inp) :: rest =>
      if total + 20 > max_credits then total
      else scanCreditsLoop max_credits (total + (scanStep p inp).credits) rest

/-- The `WHERE` test of
`analyzed_tokens_db.get_positions_needing_reconciliation`:
`still_holding = 0 AND (COALESCE(total_sold_usd,0) = 0 OR
COALESCE(sell_count,0) = 0)`. -/
def needs_reconciliation (p : Position) : Bool :=
  ¬ p.still_holding ∧ (coQ p.total_sold_usd = 0 ∨ p.sell_count.getD 0 = 0)

/-- Per-position status reported by `swab.reconcile_token_positions`. -/
inductive ReconStatus where
  | success
  | noTxFound
  | reconError
  deriving Repr, DecidableEq

/-- External answers consumed while reconciling one position. -/
structure ReconInputs where
  txResult : Option TxLookup
  currentPrice : Option ℚ
  deriving Repr, DecidableEq

/-- The per-position body of `swab.reconcile_token_positions`: on a
resolver hit of type "sell" it bumps `tokens_sold` to the entry balance
when less than half of it, estimates the USD from the live price when the
transaction carried none, and writes the row through
`update_position_sell_reconciliation`; a resolver miss only records
`no_tx_found`.  A `None` entry balance raises a `TypeError` inside the
hit branch (`tokens_sold < entry_balance * 0.5`), caught as an error. -/
def reconcileStep (p : Position) (inp : ReconInputs) : Position × ReconStatus :=
  let entry_balance := pyOr p.entry_balance p.total_bought_tokens
  match inp.txResult with
  | some tx =>
      if tx.txType = "sell" then
        let tokens_sold0 := tx.tokens.getD 0
        let usd_received0 := tx.usdAmount.getD 0
        match entry_balance with
        | none => (p, ReconStatus.reconError)
        | some eb =>
            let tokens_sold :=
              if tokens_sold0 < eb * (1/2) ∧ eb ≠ 0 then eb else tokens_sold0
            let usd_received :=
              if usd_received0 ≤ 0 ∧ tokens_sold > 0 then
                match inp.currentPrice with
                | some cp => if cp > 0 then tokens_sold * cp else usd_received0
                | none => usd_received0
              else usd_received0
            if usd_received ≤ 0 then (p, ReconStatus.noTxFound)
            else
              (update_position_sell_reconciliation p tokens_sold usd_received none,
               ReconStatus.success)
      else (p, ReconStatus.noTxFound)
  | none => (p, ReconStatus.noTxFound)

/-- Result row of `analyzed_tokens_db.calculate_wallet_metrics`. -/
structure WalletMetrics where
  win_count : ℕ
  loss_count : ℕ
  total_positions : ℕ
  win_rate : Option ℚ
  avgPnlRatio : Option ℚ
  deriving Repr, DecidableEq

/-- `analyzed_tokens_db.calculate_wallet_metrics`: the SELECT takes every
position of the wallet whose `pnl_ratio IS NOT NULL` (there is no
`still_holding` filter), counts wins (`pnl > 1.0`) and losses
(`pnl <= 1.0`) and averages. -/
def calculate_wallet_metrics (positions : List Position) : WalletMetrics :=
  let pnlRatios := positions.filterMap (fun p => p.pnlRatio)
  if pnlRatios.isEmpty then
    { win_count := 0, loss_count := 0, total_positions := 0,
      win_rate := none, avgPnlRatio := none }
  else
    let win_count := (pnlRatios.filter (fun pnl => pnl > 1)).length
    let loss_count := (pnlRatios.filter (fun pnl => pnl ≤ 1)).length
    let total_positions := pnlRatios.length
    { win_count := win_count, loss_count := loss_count,
      total_positions := total_positions,
      win_rate := some ((win_count : ℚ) / (total_positions : ℚ)),
      avgPnlRatio := some (pnlRatios.sum / (total_positions : ℚ)) }

/-- Constants above `calculate_wallet_expectancy`. -/
def SMART_EXPECTANCY_THRESHOLD : ℚ := 1/2
def DUMB_EXPECTANCY_THRESHOLD : ℚ := -(1/5)
def MIN_CLOSED_POSITIONS : ℕ := 5
def PNL_CAP_MAX : ℚ := 10
def PNL_CAP_MIN : ℚ := 1/10

/-- Result of `analyzed_tokens_db.calculate_wallet_expectancy`.  The
source additionally rounds `expectancy`, `win_rate` and `avg_pnl` to 3/2
decimals for display; the label decision uses the unrounded value kept
here. -/
structure ExpectancyResult where
  expectancy : Option ℚ
  win_rate : Option ℚ
  avg_pnl : Option ℚ
  closed_count : ℕ
  suggested_label : Option String
  deriving Repr, DecidableEq

/-- `analyzed_tokens_db.calculate_wallet_expectancy`: the SELECT takes
closed positions only (`still_holding = 0 AND pnl_ratio IS NOT NULL`);
each ratio is capped into `[PNL_CAP_MIN, PNL_CAP_MAX]`; wins are capped
ratios `> 1.0`; `expectancy = win_rate * avg_win_size - (1 - win_rate) *
avg_loss_size`; a label is suggested only with at least
`MIN_CLOSED_POSITIONS` closed positions. -/
def calculate_wallet_expectancy (positions : List Position) : ExpectancyResult :=
  let pnl_values := (positions.filter (fun p => ¬ p.still_holding)).filterMap
    (fun p => p.pnlRatio)
  if pnl_values.isEmpty then
    { expectancy := none, win_rate := none, avg_pnl := none,
      closed_count := 0, suggested_label := none }
  else
    let capped_pnl := pnl_values.map (fun pnl => max PNL_CAP_MIN (min PNL_CAP_MAX pnl))
    let wins := capped_pnl.filter (fun p => p > 1)
    let losses := capped_pnl.filter (fun p => p ≤ 1)
    let win_count := wins.length
    let loss_count := losses.length
    let total := win_count + loss_count
    let win_rate : ℚ := if total > 0 then (win_count : ℚ) / (total : ℚ) else 0
    let avg_win_size : ℚ := if wins.isEmpty then 0 else wins.sum / (wins.length : ℚ) - 1
    let avg_loss_size : ℚ := if losses.isEmpty then 0 else 1 - losses.sum / (losses.length : ℚ)
    let loss_rate := 1 - win_rate
    let expectancy := win_rate * avg_win_size - loss_rate * avg_loss_size
    let avg_pnl := pnl_values.sum / (pnl_values.length : ℚ)
    let suggested_label : Option String :=
      if total ≥ MIN_CLOSED_POSITIONS then
        if expectancy > SMART_EXPECTANCY_THRESHOLD then some "Smart"
        else if expectancy < DUMB_EXPECTANCY_THRESHOLD then some "Dumb"
        else none
      else none
    { expectancy := some expectancy, win_rate := some win_rate,
      avg_pnl := some avg_pnl, closed_count := total,
      suggested_label := suggested_label }

/-! Concrete store rows and provider answers used to evaluate the
embedded operations on explicit inputs. -/

/-- An active position: entered with 1000 tokens bought for $100
(average entry price $0.10) at a $10,000 market cap. -/
def samplePos : Position :=
  { still_holding := true
    tracking_enabled := some true
    current_balance := some 1000
    current_balance_usd := some 100
    entry_market_cap := some 10000
    entry_balance := some 1000
    entry_balance_usd := some 100
    avg_entry_price := some (1/10)
    total_bought_tokens := some 1000
    total_bought_usd := some 100
    total_sold_tokens := some 0
    total_sold_usd := some 0
    buy_count := some 1
    sell_count := some 0
    realized_pnl := some 0
    pnlRatio := none
    fpnlRatio := none
    exit_market_cap := none
    tracking_stopped_reason := none
    position_checked_at := true }

/-- A closed position with the given trade-price PnL ratio. -/
def mkClosed (r : ℚ) : Position :=
  { samplePos with
    still_holding := false
    tracking_enabled := some false
    current_balance := some 0
    current_balance_usd := some 0
    pnlRatio := some r
    tracking_stopped_reason := some "sold" }

/-- Store row after the first delivery of a webhook sell transfer of 100
tokens at a live price of $2 (a partial sell of `samplePos`). -/
def sellEventOnce : Option Position :=
  apply_sell_event (some samplePos) 100 "5UfDuX" (some 2) (some 15000)

/-- Store row after the identical event (same signature) is delivered a
second time. -/
def sellEventTwice : Option Position :=
  apply_sell_event sellEventOnce 100 "5UfDuX" (some 2) (some 15000)

/-- Scanner inputs: the provider reports the balance fell from 1000 to 1
and the resolver finds the matching sell of 999 tokens for $1998. -/
def sellScanInp : ScanInputs :=
  { balance := some 1
    tokenPrice := some 2
    currentMc := some 15000
    txBuy := none
    txSell := some { tokens := some 999, usdAmount := some 1998, txType := "sell" }
    balanceCredits := 1
    txCredits := 10 }

/-- Scanner inputs: the balance rose from 1000 to 1100 but the buy
resolver finds nothing. -/
def buyMissScanInp : ScanInputs :=
  { balance := some 1100
    tokenPrice := some 2
    currentMc := some 15000
    txBuy := none
    txSell := none
    balanceCredits := 1
    txCredits := 10 }

/-- Scanner inputs whose single balance call is charged 200 credits. -/
def expensiveScanInp : ScanInputs :=
  { balance := some 1000
    tokenPrice := some 2
    currentMc := some 15000
    txBuy := none
    txSell := none
    balanceCredits := 200
    txCredits := 0 }

/-- A fully exited, tracking-disabled position whose sell was recorded:
1000 tokens bought for $100 over two buys, sold for $150. -/
def exitedPos : Position :=
  { samplePos with
    still_holding := false
    tracking_enabled := some false
    current_balance := some 0
    current_balance_usd := some 0
    total_sold_tokens := some 1000
    total_sold_usd := some 150
    buy_count := some 2
    sell_count := some 1
    realized_pnl := some 50
    pnlRatio := some (3/2)
    tracking_stopped_reason := some "sold" }

/-- A position selected by the reconciler: marked sold but its sell was
never priced (`total_sold_usd = 0`, `sell_count = 0`). -/
def unpricedPos : Position :=
  { samplePos with
    still_holding := false
    tracking_enabled := some false
    current_balance := some 0
    current_balance_usd := some 0
    tracking_stopped_reason := some "sold" }

/-- Reconciler inputs: the sell resolver misses while the live price is
$0.15. -/
def reconMissInp : ReconInputs :=
  { txResult := none, currentPrice := some (3/20) }

/-- Upsert arguments whose claimed average entry price disagrees with the
two totals. -/
def inconsistentUpsertArgs : UpsertArgs :=
  { entry_market_cap := some 10000
    still_holding := true
    current_balance := some 10
    current_balance_usd := some 3
    entry_balance := some 10
    entry_balance_usd := some 3
    avg_entry_price := some 5
    total_bought_tokens := some 10
    total_bought_usd := some 3 }

/-- Scenario D of the specification: six closed positions at capped
ratios 2.0, 2.0, 2.0, 2.0, 0.5, 0.5. -/
def scenarioD : List Position :=
  [mkClosed 2, mkClosed 2, mkClosed 2, mkClosed 2, mkClosed (1/2), mkClosed (1/2)]

/-- Six closed positions all at ratio 2.0: a clearly Smart wallet. -/
def smartScenario : List Position :=
  [mkClosed 2, mkClosed 2, mkClosed 2, mkClosed 2, mkClosed 2, mkClosed 2]

/-- A still-holding position whose market-cap based `pnl_ratio` is 2.0. -/
def holdWinPos : Position := { samplePos with pnlRatio := some 2 }

/-- Upsert arguments whose average entry price agrees with the totals. -/
def consistentUpsertArgs : UpsertArgs :=
  { inconsistentUpsertArgs with avg_entry_price := some (3/10) }

/-- Reconciler inputs: the resolver finds a sell of 100 tokens whose USD
value could not be derived, while the live price is $0.15. -/
def reconHitInp : ReconInputs :=
  { txResult := some { tokens := some 100, usdAmount := some 0, txType := "sell" },
    currentPrice := some (3/20) }

/-! Theorems settling the claims. -/

/-- C1: webhook processing is NOT idempotent by transaction signature.
`webhook_callback` never consults the signature before applying a
transfer, so delivering the identical sell event (same signature
"5UfDuX", 100 tokens at a live price of $2) twice double-applies the
totals: after the first call `total_sold_tokens = 100`,
`total_sold_usd = 200`, `sell_count = 1`; after the replay they are 200,
400 and 2 instead of being left unchanged.  The code contradicts the
stated idempotence requirement. -/
theorem C1_webhook_replay_double_applies_totals :
    sellEventOnce.map
        (fun p => (p.total_sold_tokens, p.total_sold_usd, p.sell_count)) =
      some (some 100, some 200, some 1) ∧
    sellEventTwice.map
        (fun p => (p.total_sold_tokens, p.total_sold_usd, p.sell_count)) =
      some (some 200, some 400, some 2) := by
  constructor <;>
  norm_num [sellEventOnce, sellEventTwice, apply_sell_event, process_swab_sell,
    get_active_position, webhook_is_full_exit, record_position_sell, samplePos,
    coQ, truthyQ, pyOr]

/-- C2 counterexample: in `check_mtew_positions` the balance drops from
1000 to 1 (a sell of 999 tokens, more than 0.99 × 1000 = 990, leaving a
residue of 1 ≥ 0.001), so the claimed full-exit rule holds of this input;
yet the scanner classifies it a partial sell: the position stays
`still_holding`, tracking stays enabled and the sold counter is not
bumped. -/
theorem C2_counterexample :
    (scanStep samplePos sellScanInp).soldInc = false ∧
    (scanStep samplePos sellScanInp).pos.still_holding = true ∧
    (scanStep samplePos sellScanInp).pos.tracking_enabled = some true ∧
    ((1 : ℚ) < 1/1000 ∨ (999 : ℚ) ≥ 99/100 * 1000) := by
  refine ⟨?_, ?_, ?_, ?_⟩ <;>
  norm_num [scanStep, samplePos, sellScanInp, record_position_sell,
    update_mtew_position, stop_tracking_position, coQ, truthyQ, pyOr]

/-- C3 counterexample: the balance rises from 1000 to 1100 with a live
price of $2 but the buy resolver misses; the claim predicts a recorded
buy of 100 tokens for $200 (totals 1100 / $300, `buy_count` 2), yet the
scanner leaves every bought-side aggregate untouched and only refreshes
the balance. -/
theorem C3_counterexample :
    (scanStep samplePos buyMissScanInp).pos.total_bought_tokens = some 1000 ∧
    (scanStep samplePos buyMissScanInp).pos.total_bought_usd = some 100 ∧
    (scanStep samplePos buyMissScanInp).pos.buy_count = some 1 ∧
    (scanStep samplePos buyMissScanInp).pos.avg_entry_price = some (1/10) ∧
    (scanStep samplePos buyMissScanInp).pos.current_balance = some 1100 ∧
    (scanStep samplePos buyMissScanInp).pos.total_bought_tokens ≠ some 1100 ∧
    (scanStep samplePos buyMissScanInp).pos.buy_count ≠ some 2 ∧
    (scanStep samplePos buyMissScanInp).buyDetected = false := by
  refine ⟨?_, ?_, ?_, ?_, ?_, ?_, ?_, ?_⟩ <;>
  norm_num [scanStep, samplePos, buyMissScanInp, record_position_buy,
    update_mtew_position, coQ, truthyQ, pyOr]

/-- C4 counterexample: `upsert_mtew_position` writes `avg_entry_price`
straight from its argument, so creating a position with
`avg_entry_price = 5`, `total_bought_tokens = 10`, `total_bought_usd = 3`
stores an average that is NOT derived from the two totals:
5 × 10 = 50 ≠ 3. -/
theorem C4_counterexample :
    (upsert_mtew_position_insert inconsistentUpsertArgs).avg_entry_price = some 5 ∧
    (upsert_mtew_position_insert inconsistentUpsertArgs).total_bought_tokens = some 10 ∧
    (upsert_mtew_position_insert inconsistentUpsertArgs).total_bought_usd = some 3 ∧
    (5 : ℚ) * 10 ≠ 3 := by
  refine ⟨?_, ?_, ?_, ?_⟩ <;>
    (simp [upsert_mtew_position_insert, inconsistentUpsertArgs, coQ, truthyQ, pyOr];
      try norm_num)

/-- C5 counterexample: the budget guard only checks `creditsUsed + 20 ≤
maxCreditBudget` before an iteration, so a provider call charged 200
credits against a budget of 100 ends the scan with `creditsUsed = 200`,
beyond budget + headroom = 120.  The claimed bound fails for arbitrary
per-call charges. -/
theorem C5_counterexample :
    ¬ scanCreditsLoop 100 0 [(samplePos, expensiveScanInp)] ≤ 100 + 20 := by
  norm_num [scanCreditsLoop, scanStep, samplePos, expensiveScanInp,
    update_mtew_position, coQ, truthyQ, pyOr]

/-- C6 counterexample: a buy of 500 tokens at $1 on a fully exited,
tracking-disabled position (1000 tokens / $100 / 2 buys) is folded into
the closed aggregate history — totals become 1500 tokens / $600,
`buy_count` 3, `avg_entry_price` recomputed over the combined totals to
$0.40 — and `tracking_enabled` stays false instead of being reactivated. -/
theorem C6_counterexample :
    (process_swab_buy (some exitedPos) 500 "3nKYq" (some 1)).map
        (fun p => (p.total_bought_tokens, p.total_bought_usd, p.buy_count,
          p.avg_entry_price, p.still_holding, p.tracking_enabled)) =
      some (some 1500, some 600, some 3, some (2/5), true, some false) ∧
    exitedPos.still_holding = false ∧
    exitedPos.tracking_enabled = some false ∧
    exitedPos.total_bought_tokens = some 1000 := by
  refine ⟨?_, ?_, ?_, ?_⟩ <;>
  norm_num [process_swab_buy, record_position_buy, exitedPos, samplePos,
    coQ, truthyQ, pyOr]

/-- C7 counterexample: a position the reconciler selects (sold, never
priced, entry balance 1000) meets a resolver miss while the live price is
$0.15; the claim predicts a fallback estimate of 1000 × 0.15 = $150, yet
the reconciler returns the row unchanged (still unpriced, `pnl_ratio`
NULL) with status `no_tx_found`. -/
theorem C7_counterexample :
    needs_reconciliation unpricedPos = true ∧
    reconcileStep unpricedPos reconMissInp = (unpricedPos, ReconStatus.noTxFound) ∧
    (reconcileStep unpricedPos reconMissInp).1.total_sold_usd ≠ some (1000 * (3/20)) ∧
    unpricedPos.total_sold_usd = some 0 ∧
    unpricedPos.pnlRatio = none := by
  refine ⟨?_, ?_, ?_, ?_, ?_⟩ <;>
  norm_num [needs_reconciliation, reconcileStep, unpricedPos, reconMissInp,
    samplePos, coQ, truthyQ, pyOr]

/-- C9 counterexample: `calculate_wallet_metrics` has no `still_holding`
filter, so a still-holding position with market-cap `pnl_ratio = 2.0`
raises the wallet's `win_count` from 0 to 1. -/
theorem C9_counterexample :
    (calculate_wallet_metrics [mkClosed (1/2), holdWinPos]).win_count = 1 ∧
    (calculate_wallet_metrics [mkClosed (1/2)]).win_count = 0 ∧
    holdWinPos.still_holding = true ∧
    holdWinPos.pnlRatio = some 2 := by
  refine ⟨?_, ?_, ?_, ?_⟩ <;>
  norm_num [calculate_wallet_metrics, mkClosed, holdWinPos, samplePos,
    List.filterMap_cons]

/-- C10: when the market data feed returns no price, both webhook
handlers bail out before any store write: the buy handler and the sell
handler return `none` (no mutation of the position record at all — no
balance, aggregate, counter or holding-status update). -/
theorem C10_no_price_leaves_position_unchanged (row : Option Position)
    (amount : ℚ) (sig : String) (mc : Option ℚ) :
    process_swab_buy row amount sig none = none ∧
    process_swab_sell row amount sig none mc = none := by
  constructor
  · cases row <;> simp [process_swab_buy, truthyQ]
  · cases row with
    | none => simp [process_swab_sell, get_active_position]
    | some p =>
        simp only [process_swab_sell, get_active_position]
        split <;> simp [truthyQ]

/-- C6 (amended): a webhook buy on a fully exited position is folded into
the closed aggregate history rather than starting a new buy sequence:
the prior totals absorb the new buy, `buy_count` is bumped,
`avg_entry_price` is recomputed over the combined totals, and
`still_holding` is set true while `tracking_enabled` is left exactly as
it was (a fully exited position is NOT re-enabled for tracking). -/
theorem C6_amended_reentry_folds_into_closed_aggregates (p : Position)
    (amt : ℚ) (sig : String) (price : Option ℚ)
    (_hclosed : p.still_holding = false) (hprice : truthyQ price = true) :
    ∃ p1, process_swab_buy (some p) amt sig price = some p1 ∧
      p1.total_bought_tokens = some (coQ p.total_bought_tokens + amt) ∧
      p1.total_bought_usd = some (coQ p.total_bought_usd + amt * coQ price) ∧
      p1.buy_count = some (p.buy_count.getD 1 + 1) ∧
      p1.avg_entry_price = (if coQ p.total_bought_tokens + amt = 0 then none
        else some ((coQ p.total_bought_usd + amt * coQ price) /
          (coQ p.total_bought_tokens + amt))) ∧
      p1.still_holding = true ∧
      p1.tracking_enabled = p.tracking_enabled := by
  refine ⟨record_position_buy p amt (amt * coQ price) (coQ p.current_balance + amt)
    (some ((coQ p.current_balance + amt) * coQ price)), ?_, ?_, ?_, ?_, ?_, ?_, ?_⟩
  · simp [process_swab_buy, hprice]
  all_goals simp [record_position_buy]

/-- C6 witness: the amended statement evaluated on the concrete exited
position `exitedPos` and a 500-token buy at $1. -/
theorem C6_amended_witness :
    exitedPos.still_holding = false ∧ truthyQ (some 1) = true ∧
    ∃ p1, process_swab_buy (some exitedPos) 500 "3nKYq" (some 1) = some p1 ∧
      p1.total_bought_tokens = some (coQ exitedPos.total_bought_tokens + 500) ∧
      p1.total_bought_usd = some (coQ exitedPos.total_bought_usd + 500 * coQ (some 1)) ∧
      p1.buy_count = some (exitedPos.buy_count.getD 1 + 1) ∧
      p1.avg_entry_price = (if coQ exitedPos.total_bought_tokens + 500 = 0 then none
        else some ((coQ exitedPos.total_bought_usd + 500 * coQ (some 1)) /
          (coQ exitedPos.total_bought_tokens + 500))) ∧
      p1.still_holding = true ∧
      p1.tracking_enabled = exitedPos.tracking_enabled :=
  ⟨rfl, rfl,
    C6_amended_reentry_folds_into_closed_aggregates exitedPos 500 "3nKYq" (some 1) rfl rfl⟩

/-- C7 (amended): on a resolver miss the reconciler does NOT price the
position — it leaves the row unchanged and reports `no_tx_found`; the
live-price fallback exists only inside the hit branch: when a sell
transaction IS found but carries no USD value, and its token amount is
below half the entry balance, the position is updated with
`entry_balance × livePrice`. -/
theorem C7_amended_miss_leaves_unpriced :
    (∀ (p : Position) (inp : ReconInputs), inp.txResult = none →
      reconcileStep p inp = (p, ReconStatus.noTxFound)) ∧
    (∀ (p : Position) (inp : ReconInputs) (tx : TxLookup) (eb cp : ℚ),
      inp.txResult = some tx → tx.txType = "sell" →
      pyOr p.entry_balance p.total_bought_tokens = some eb → eb > 0 →
      tx.tokens.getD 0 < eb * (1/2) → tx.usdAmount.getD 0 ≤ 0 →
      inp.currentPrice = some cp → cp > 0 →
      reconcileStep p inp =
        (update_position_sell_reconciliation p eb (eb * cp) none,
         ReconStatus.success)) := by
  constructor
  · intro p inp h
    simp [reconcileStep, h]
  · intro p inp tx eb cp htx hty hpy heb htok husd hcp hcppos
    have hebne : eb ≠ 0 := ne_of_gt heb
    have hpos : 0 < eb * cp := mul_pos heb hcppos
    simp only [reconcileStep, htx, hty, hpy, hcp]
    have h1 : tx.tokens.getD 0 < eb * (1 / 2) ∧ eb ≠ 0 := And.intro htok hebne
    rw [if_pos trivial, if_pos h1]
    have h2 : tx.usdAmount.getD 0 ≤ 0 ∧ eb > 0 := And.intro husd heb
    rw [if_pos h2, if_pos hcppos, if_neg (not_le.mpr hpos)]

/-- C7 witness: the amended statement evaluated on the concrete unpriced
position, once against a resolver miss and once against a hit without a
derivable USD value. -/
theorem C7_amended_witness :
    reconcileStep unpricedPos reconMissInp = (unpricedPos, ReconStatus.noTxFound) ∧
    reconcileStep unpricedPos reconHitInp =
      (update_position_sell_reconciliation unpricedPos 1000 (1000 * (3/20)) none,
       ReconStatus.success) :=
  ⟨C7_amended_miss_leaves_unpriced.1 unpricedPos reconMissInp rfl,
   C7_amended_miss_leaves_unpriced.2 unpricedPos reconHitInp
     { tokens := some 100, usdAmount := some 0, txType := "sell" } 1000 (3/20)
     rfl rfl (by norm_num [pyOr, truthyQ, unpricedPos, samplePos]) (by norm_num)
     (by norm_num) (by norm_num) rfl (by norm_num)⟩

/-- C4 (amended): the cost-basis invariant
`avg_entry_price × total_bought_tokens = total_bought_usd` is
(re-)established exactly by every applied buy — `record_position_buy`
always derives the stored average from the two summed totals — and it
holds after `upsert_mtew_position` creates a position whenever the caller
passes an average equal to `total_bought_usd / total_bought_tokens`; the
creation path CAN, however, write `avg_entry_price` independently of the
totals (see the counterexample). -/
theorem C4_amended_invariant :
    (∀ (p : Position) (tb ua cb : ℚ) (cbu : Option ℚ) (t : ℚ),
      (record_position_buy p tb ua cb cbu).total_bought_tokens = some t → t ≠ 0 →
      ∃ a, (record_position_buy p tb ua cb cbu).avg_entry_price = some a ∧
        a * t = coQ (record_position_buy p tb ua cb cbu).total_bought_usd) ∧
    (∀ (args : UpsertArgs) (t u : ℚ),
      args.total_bought_tokens = some t → args.total_bought_usd = some u →
      t ≠ 0 → args.avg_entry_price = some (u / t) →
      (upsert_mtew_position_insert args).total_bought_tokens = some t ∧
      (upsert_mtew_position_insert args).total_bought_usd = some u ∧
      ∃ a, (upsert_mtew_position_insert args).avg_entry_price = some a ∧
        a * t = u) := by
  constructor
  · intro p tb ua cb cbu t ht hne
    simp only [record_position_buy, Option.some.injEq] at ht
    subst ht
    refine ⟨(coQ p.total_bought_usd + ua) / (coQ p.total_bought_tokens + tb), ?_, ?_⟩
    · simp [record_position_buy, hne]
    · simp only [record_position_buy, coQ, Option.getD_some]
      exact div_mul_cancel₀ _ hne
  · intro args t u h1 h2 hne h3
    refine ⟨?_, ?_, u / t, ?_, div_mul_cancel₀ u hne⟩ <;>
    simp [upsert_mtew_position_insert, h1, h2, h3]

/-- C4 witness: the amended statement evaluated on a concrete buy over
`samplePos` (100 tokens for $50) and on a creation whose average entry
price agrees with the totals. -/
theorem C4_amended_witness :
    ((record_position_buy samplePos 100 50 1100 none).total_bought_tokens = some 1100 ∧
      ∃ a, (record_position_buy samplePos 100 50 1100 none).avg_entry_price = some a ∧
        a * 1100 = coQ (record_position_buy samplePos 100 50 1100 none).total_bought_usd) ∧
    ((upsert_mtew_position_insert consistentUpsertArgs).total_bought_tokens = some 10 ∧
      (upsert_mtew_position_insert consistentUpsertArgs).total_bought_usd = some 3 ∧
      ∃ a, (upsert_mtew_position_insert consistentUpsertArgs).avg_entry_price = some a ∧
        a * 10 = 3) :=
  ⟨⟨by norm_num [record_position_buy, samplePos, coQ],
    C4_amended_invariant.1 samplePos 100 50 1100 none 1100
      (by norm_num [record_position_buy, samplePos, coQ]) (by norm_num)⟩,
   C4_amended_invariant.2 consistentUpsertArgs 10 3 rfl rfl (by norm_num)
     (by norm_num [consistentUpsertArgs, inconsistentUpsertArgs])⟩

/-- C2 (amended): in the scanner's sell branch the full-exit flag is
`newBalance < 0.001` ALONE — the sold counter is bumped exactly when the
new balance is below 0.001, independent of how large a share of the
previous balance was sold; the `soldTokens ≥ 0.99 × previousBalance`
disjunct exists only in the webhook sell path (`_process_swab_sell`). -/
theorem C2_amended_scanner_full_exit_rule (p : Position) (inp : ScanInputs) (b : ℚ)
    (hb : inp.balance = some b) (hdelta : coQ p.current_balance - b > 1/1000) :
    (scanStep p inp).soldInc = decide (b < 1/1000) ∧
    ∀ cb ts : ℚ, webhook_is_full_exit cb ts =
      decide (max 0 (cb - ts) < 1/1000 ∨ ts ≥ cb * (99/100)) := by
  constructor
  · have hne : ¬ (|b - coQ p.current_balance| > 1/1000 ∧ b - coQ p.current_balance > 0) := by
      rintro ⟨h1, h2⟩
      linarith
    have hyes : |b - coQ p.current_balance| > 1/1000 ∧ b - coQ p.current_balance < 0 := by
      constructor
      · rw [abs_sub_comm, abs_of_pos (by linarith : (0:ℚ) < coQ p.current_balance - b)]
        linarith
      · linarith
    simp only [scanStep, hb, if_neg hne, if_pos hyes]
  · intro cb ts
    rfl

/-- C2 witness: the amended statement evaluated at the concrete
1000-to-1 balance drop. -/
theorem C2_amended_witness :
    coQ samplePos.current_balance - 1 > 1/1000 ∧
    (scanStep samplePos sellScanInp).soldInc = decide ((1:ℚ) < 1/1000) :=
  ⟨by norm_num [samplePos, coQ],
   (C2_amended_scanner_full_exit_rule samplePos sellScanInp 1 rfl
     (by norm_num [samplePos, coQ])).1⟩

/-- C3 (amended): when the buy resolver misses, the scanner applies NO
buy at all: `total_bought_tokens`, `total_bought_usd`, `buy_count` and
`avg_entry_price` are left exactly as they were; only the balance and the
market-cap `pnl_ratio` are refreshed (no `delta × livePrice` estimate is
recorded anywhere in the scanner's buy branch). -/
theorem C3_amended_buy_miss_applies_no_buy (p : Position) (inp : ScanInputs) (b : ℚ)
    (hb : inp.balance = some b) (hdelta : b - coQ p.current_balance > 1/1000)
    (hmiss : inp.txBuy = none) :
    (scanStep p inp).pos.total_bought_tokens = p.total_bought_tokens ∧
    (scanStep p inp).pos.total_bought_usd = p.total_bought_usd ∧
    (scanStep p inp).pos.buy_count = p.buy_count ∧
    (scanStep p inp).pos.avg_entry_price = p.avg_entry_price ∧
    (scanStep p inp).pos.current_balance = some b ∧
    (scanStep p inp).buyDetected = false := by
  have hyes : |b - coQ p.current_balance| > 1/1000 ∧ b - coQ p.current_balance > 0 := by
    constructor
    · rw [abs_of_pos (by linarith : (0:ℚ) < b - coQ p.current_balance)]
      linarith
    · linarith
  simp only [scanStep, hb, hmiss, if_pos hyes]
  simp [update_mtew_position]

/-- C3 witness: the amended statement evaluated at the concrete
1000-to-1100 balance rise with a resolver miss. -/
theorem C3_amended_witness :
    (1100 : ℚ) - coQ samplePos.current_balance > 1/1000 ∧
    (scanStep samplePos buyMissScanInp).pos.buy_count = samplePos.buy_count ∧
    (scanStep samplePos buyMissScanInp).pos.total_bought_tokens =
      samplePos.total_bought_tokens :=
  ⟨by norm_num [samplePos, coQ],
   (C3_amended_buy_miss_applies_no_buy samplePos buyMissScanInp 1100 rfl
     (by norm_num [samplePos, coQ]) rfl).2.2.1,
   (C3_amended_buy_miss_applies_no_buy samplePos buyMissScanInp 1100 rfl
     (by norm_num [samplePos, coQ]) rfl).1⟩

/-- One scanner iteration charges at most its balance-call credits plus
its transaction-lookup credits. -/
lemma scanStep_credits_le (p : Position) (inp : ScanInputs) :
    (scanStep p inp).credits ≤ inp.balanceCredits + inp.txCredits := by
  unfold scanStep
  cases hb : inp.balance with
  | none => simp
  | some b =>
      dsimp only
      repeat' split
      all_goals simp

/-- The credit guard keeps the running total within budget + 40-headroom:
entering an iteration requires `total + 20 ≤ max`, so each step can
overshoot by at most its own charge. -/
lemma scanCreditsLoop_bounded (max_credits : ℕ)
    (l : List (Position × ScanInputs))
    (h : ∀ pi ∈ l, (scanStep pi.1 pi.2).credits ≤ 40) :
    ∀ total, total ≤ max_credits + 20 →
      scanCreditsLoop max_credits total l ≤ max_credits + 20 := by
  induction l with
  | nil =>
      intro total ht
      simpa [scanCreditsLoop] using ht
  | cons hd tl ih =>
      intro total ht
      rw [scanCreditsLoop]
      split
      · exact ht
      · rename_i hguard
        apply ih (fun pi hm => h pi (List.mem_cons_of_mem _ hm))
        have hc := h hd (List.mem_cons_self _ _)
        omega

/-- C5 (amended): the guard `creditsUsed + 20 ≤ maxCreditBudget` is
checked before each iteration, so `creditsUsed` stays within
`maxCreditBudget + 20` PROVIDED each provider call of an iteration (one
balance fetch and at most one transaction lookup) charges at most the
20-credit headroom unit; for unbounded per-call charges the bound fails
(see the counterexample). -/
theorem C5_amended_budget_with_bounded_charges (max_credits : ℕ)
    (l : List (Position × ScanInputs))
    (h : ∀ pi ∈ l, pi.2.balanceCredits ≤ 20 ∧ pi.2.txCredits ≤ 20) :
    scanCreditsLoop max_credits 0 l ≤ max_credits + 20 := by
  apply scanCreditsLoop_bounded
  · intro pi hm
    have h1 := scanStep_credits_le pi.1 pi.2
    have h2 := h pi hm
    omega
  · omega

/-- C5 witness: the amended statement evaluated on a one-position batch
whose calls charge 1 and 10 credits. -/
theorem C5_amended_witness :
    (∀ pi ∈ [(samplePos, sellScanInp)],
      pi.2.balanceCredits ≤ 20 ∧ pi.2.txCredits ≤ 20) ∧
    scanCreditsLoop 100 0 [(samplePos, sellScanInp)] ≤ 100 + 20 :=
  ⟨by simp [sellScanInp], C5_amended_budget_with_bounded_charges 100 _ (by simp [sellScanInp])⟩

/-- C8: wallet expectancy caps each closed `pnl_ratio` into [0.1, 10],
counts wins strictly above 1.0, uses
`expectancy = winRate × avgWinSize − (1 − winRate) × avgLossSize`, and
suggests Smart only with at least 5 closed positions and expectancy
strictly above 0.5; on Scenario D (capped ratios 2, 2, 2, 2, 0.5, 0.5)
the expectancy is exactly 1/2 — winRate 2/3, six closed positions — and
the Smart label is therefore NOT suggested. -/
theorem C8_expectancy_formula_and_scenario :
    (∀ positions : List Position,
      (calculate_wallet_expectancy positions).suggested_label = some "Smart" →
        (calculate_wallet_expectancy positions).closed_count ≥ 5 ∧
        ∃ e, (calculate_wallet_expectancy positions).expectancy = some e ∧ e > 1/2) ∧
    (calculate_wallet_expectancy scenarioD).expectancy = some (1/2) ∧
    (calculate_wallet_expectancy scenarioD).win_rate = some (2/3) ∧
    (calculate_wallet_expectancy scenarioD).closed_count = 6 ∧
    (calculate_wallet_expectancy scenarioD).suggested_label = none ∧
    (∀ r : ℚ, max PNL_CAP_MIN (min PNL_CAP_MAX r) = max (1/10) (min 10 r)) := by
  refine ⟨?_, ?_, ?_, ?_, ?_, fun r => rfl⟩
  · intro positions h
    unfold calculate_wallet_expectancy at h ⊢
    generalize hL : ((positions.filter (fun p => ¬ p.still_holding)).filterMap
      (fun p => p.pnlRatio)) = L at h ⊢
    simp only [MIN_CLOSED_POSITIONS, SMART_EXPECTANCY_THRESHOLD,
      DUMB_EXPECTANCY_THRESHOLD] at h ⊢
    split_ifs at h ⊢ <;>
      (try dsimp only at h ⊢) <;>
      first
        | exact ⟨‹_›, _, rfl, ‹_›⟩
        | simp at h
  all_goals
    norm_num [calculate_wallet_expectancy, scenarioD, mkClosed, samplePos,
      PNL_CAP_MIN, PNL_CAP_MAX, MIN_CLOSED_POSITIONS, SMART_EXPECTANCY_THRESHOLD,
      DUMB_EXPECTANCY_THRESHOLD, List.filterMap_cons, List.filter_cons]

/-- C8 witness: the Smart-only-if direction applied to a wallet with six
closed positions all at capped ratio 2.0. -/
theorem C8_expectancy_witness :
    (calculate_wallet_expectancy smartScenario).suggested_label = some "Smart" ∧
    ((calculate_wallet_expectancy smartScenario).closed_count ≥ 5 ∧
      ∃ e, (calculate_wallet_expectancy smartScenario).expectancy = some e ∧ e > 1/2) :=
  ⟨by norm_num [calculate_wallet_expectancy, smartScenario, mkClosed, samplePos,
      PNL_CAP_MIN, PNL_CAP_MAX, MIN_CLOSED_POSITIONS, SMART_EXPECTANCY_THRESHOLD,
      List.filterMap_cons, List.filter_cons],
   C8_expectancy_formula_and_scenario.1 smartScenario
     (by norm_num [calculate_wallet_expectancy, smartScenario, mkClosed, samplePos,
       PNL_CAP_MIN, PNL_CAP_MAX, MIN_CLOSED_POSITIONS, SMART_EXPECTANCY_THRESHOLD,
       List.filterMap_cons, List.filter_cons])⟩

/-- C9 (amended): `calculate_wallet_metrics` derives `win_count`,
`loss_count` and `total_positions` from EVERY position of the wallet with
a non-NULL `pnl_ratio` — still-holding positions included; there is no
closed-positions filter. -/
theorem C9_amended_metrics_ignore_holding_status (positions : List Position) :
    (calculate_wallet_metrics positions).win_count =
      ((positions.filterMap fun p => p.pnlRatio).filter (fun pnl => pnl > 1)).length ∧
    (calculate_wallet_metrics positions).loss_count =
      ((positions.filterMap fun p => p.pnlRatio).filter (fun pnl => pnl ≤ 1)).length ∧
    (calculate_wallet_metrics positions).total_positions =
      (positions.filterMap fun p => p.pnlRatio).length := by
  simp only [calculate_wallet_metrics]
  split
  · rename_i hemp
    rw [List.isEmpty_iff] at hemp
    simp [hemp]
  · simp

end Meridinate
